import Mathlib

/-!
Verification development for the AI call-center session engine.

The definitions below are a shallow embedding of the routing, IVR, time-based
classification, duplex-relay lifecycle and configuration-resolver code of the
repository (the Express webhook handlers and socket event handlers of the main
server file, and the Supabase service module).  JavaScript objects become Lean
structures; nullable / possibly-absent fields become `Option`; the JavaScript
`x || d` defaulting idiom is modelled by the `jsOr*` helpers (observing the JS
falsiness of `false`, `0`, `""` and `null`/`undefined`); database and network
effects are made explicit as data (effect lists, query flags, event traces).
-/

/-- JS `s || d` for a nullable string field: `null`/`undefined` and `""` are
falsy and yield the default. -/
def jsOrStr (v : Option String) (d : String) : String :=
  match v with
  | some s => if s = "" then d else s
  | none => d

/-- JS `n || d` for a nullable numeric field: `null`/`undefined` and `0` are
falsy and yield the default. -/
def jsOrNat (v : Option Nat) (d : Nat) : Nat :=
  match v with
  | some n => if n = 0 then d else n
  | none => d

/-- JS `b || d` for a nullable boolean field: `null`/`undefined` and `false`
are falsy and yield the default. -/
def jsOrBool (v : Option Bool) (d : Bool) : Bool :=
  match v with
  | some b => if b then b else d
  | none => d

/-- JS `a || b` where both operands are nullable strings (used for
`client_name || full_name`). -/
def jsOrOptStr (a b : Option String) : Option String :=
  match a with
  | some s => if s = "" then b else some s
  | none => b

/-- An AI agent row (table `ai_agents`), restricted to the fields the routing
code reads.  `business_days`, `business_hours_start` and `business_hours_end`
are nullable in the schema; the time fields hold `"HH:MM"` strings exactly as
the source parses them with `split(':')`. -/
structure Agent where
  id : Nat
  name : String
  agent_type : String
  greeting : Option String
  language_code : Option String
  voice_name : Option String
  system_instruction : Option String
  business_days : Option (List Nat)
  business_hours_start : Option String
  business_hours_end : Option String
deriving Repr, DecidableEq

/-- One option row of an IVR menu (table `ivr_options`): a digit mapped to an
action.  `action_phone_number` models `action_data?.phone_number`. -/
structure IvrOption where
  id : Nat
  digit : String
  action_type : String
  agent_id : Option Nat
  action_phone_number : Option String
deriving Repr, DecidableEq

/-- An IVR menu row (table `ivr_menus`) with its joined options. -/
structure IvrMenu where
  id : Nat
  name : String
  greeting_text : String
  timeout_seconds : Option Nat
  max_attempts : Option Nat
  ivr_options : List IvrOption
deriving Repr, DecidableEq

/-- An external-integration row (table `external_integrations`).  The
kind-specific `configuration` JSON is flattened into the three fields the
dispatch reads: `sip_uri`, `extension_map` and `agent_id`. -/
structure ExternalIntegration where
  id : Nat
  integration_type : String
  sip_uri : Option String
  extension_map : List (String × Nat)
  agent_id : Option Nat
deriving Repr, DecidableEq

/-- A tenant profile row (table `profiles`), restricted to the fields read by
`getClientConfigByPhoneNumber`.  Every field the code defaults with `||` is
nullable here. -/
structure Profile where
  id : Nat
  client_name : Option String
  full_name : Option String
  routing_strategy : Option String
  call_recording_enabled : Option Bool
  transcription_enabled : Option Bool
  max_concurrent_calls : Option Nat
  monthly_minute_limit : Option Nat
  minutes_used : Option Nat
deriving Repr, DecidableEq

/-- A phone-number row (table `phone_numbers`) with its joined profile
(the `select('*, profiles(*)')` join). -/
structure PhoneRow where
  phone_number : String
  profile_id : Nat
  agent_id : Option Nat
  is_primary : Bool
  profile : Profile
deriving Repr, DecidableEq

/-- The resolved tenant configuration assembled by
`getClientConfigByPhoneNumber` (the `config` object literal). -/
structure ClientConfig where
  clientId : Nat
  clientName : Option String
  routingStrategy : String
  phoneNumber : PhoneRow
  allPhoneNumbers : List PhoneRow
  agents : List Agent
  ivrMenu : Option IvrMenu
  externalIntegrations : List ExternalIntegration
  recordingEnabled : Bool
  transcriptionEnabled : Bool
  maxConcurrentCalls : Nat
  minutesLimit : Nat
  minutesUsed : Nat
deriving Repr, DecidableEq

/-- The `config` object literal of `getClientConfigByPhoneNumber`
(supabase-service.js), field by field, with the JS `||` defaults. -/
def buildClientConfig (profile : Profile) (phoneData : PhoneRow)
    (allPhoneNumbers : List PhoneRow) (allAgents : List Agent)
    (ivrMenu : Option IvrMenu) (integrations : List ExternalIntegration) :
    ClientConfig where
  clientId := profile.id
  clientName := jsOrOptStr profile.client_name profile.full_name
  routingStrategy := jsOrStr profile.routing_strategy "single_number_ivr"
  phoneNumber := phoneData
  allPhoneNumbers := allPhoneNumbers
  agents := allAgents
  ivrMenu := ivrMenu
  externalIntegrations := integrations
  recordingEnabled := jsOrBool profile.call_recording_enabled true
  transcriptionEnabled := jsOrBool profile.transcription_enabled true
  maxConcurrentCalls := jsOrNat profile.max_concurrent_calls 5
  minutesLimit := jsOrNat profile.monthly_minute_limit 1000
  minutesUsed := jsOrNat profile.minutes_used 0

/-- IVR progress stored in a call session.  `menuId` is `Option` because the
retry branch rebuilds the context with an object spread that only guarantees
the `attempts` field. -/
structure IvrContext where
  menuId : Option Nat
  attempts : Nat
deriving Repr, DecidableEq

/-- The session object stored by `storeCallSession` /
`callSessionStore.set` (the `sessionData` literals of the webhook handlers). -/
structure CallSession where
  clientConfig : ClientConfig
  selectedAgent : Option Agent
  ivrContext : Option IvrContext
  callType : String
  fromNumber : String
  toNumber : String
deriving Repr, DecidableEq

/-- The TwiML response produced by a webhook handler, abstracted to the
call-control decision it encodes. -/
inductive Decision where
  | sayError (msg : String)
  | connect (agent : Agent) (greeting : String)
  | connectMsg (agent : Agent) (msg : String)
  | ivrPrompt (gatherText : String) (timeoutSeconds : Nat)
  | dialNumber (number : String)
  | dialSip (uri : String)
  | voicemailPrompt
  | jsError (msg : String)
deriving Repr, DecidableEq

/-- Outcome of a routing webhook: the TwiML decision plus the call session it
stored (in the database and the in-memory map), if any. -/
structure RouteResult where
  decision : Decision
  stored : Option CallSession
deriving Repr, DecidableEq

/-- Default greeting literal used by every connect branch. -/
def defaultGreeting : String :=
  "Hello! I am your AI assistant. How can I help you today?"

/-- JS truthiness test on a nullable string (`if (!s) ...`): `""` and
`null`/`undefined` are falsy. -/
def truthyStr (v : Option String) : Option String :=
  match v with
  | some s => if s = "" then none else some s
  | none => none

/-- JS truthiness test on a nullable number (`if (!n) ...`): `0` and
`null`/`undefined` are falsy. -/
def truthyNat (v : Option Nat) : Option Nat :=
  match v with
  | some n => if n = 0 then none else some n
  | none => none

/-- Per-call metadata visible to the voice webhook: the POST body fields
(`From`, `To`, `Digits`) plus the local wall-clock facts at the tenant
timezone.  `currentHour`/`currentMinute` come from the source's hour/minute
formatter, whose options (`hour`/`minute: 'numeric'`, `hour12: false`) are
valid.  `clientDay` is the weekday string the source's weekday formatter
would produce had its construction not thrown — its `weekday: 'numeric'`
option value is invalid under ECMA-402 and raises a RangeError; see
`handleTimeBasedRouting`. -/
structure CallMeta where
  fromNumber : String
  toNumber : String
  digits : Option String
  clientDay : String
  currentHour : Nat
  currentMinute : Nat
deriving Repr, DecidableEq

/-- The `sessionData` literal every connect branch stores: selected agent set,
no IVR context. -/
def mkSession (cfg : ClientConfig) (agent : Agent) (meta : CallMeta) :
    CallSession :=
  { clientConfig := cfg, selectedAgent := some agent, ivrContext := none,
    callType := "inbound", fromNumber := meta.fromNumber,
    toNumber := meta.toNumber }

/-- The `default:` case of the voice webhook strategy switch: connect to
`agents[0]`, or an error response when no agent exists. -/
def defaultRouting (cfg : ClientConfig) (meta : CallMeta) : RouteResult :=
  match cfg.agents with
  | [] => ⟨.sayError "Sorry, no AI agents are available. Please try again later.", none⟩
  | defaultAgent :: _ =>
      ⟨.connect defaultAgent (jsOrStr defaultAgent.greeting defaultGreeting),
        some (mkSession cfg defaultAgent meta)⟩

/-- `handleIVRRouting`: with no menu, fall back to the first agent (degraded
path); with a menu, gather a digit and store a session with
`ivrContext = {menuId, attempts: 0}` and no selected agent. -/
def handleIVRRouting (cfg : ClientConfig) (meta : CallMeta) : RouteResult :=
  match cfg.ivrMenu with
  | none =>
    match cfg.agents with
    | [] => ⟨.sayError "Sorry, the menu system is not configured properly.", none⟩
    | defaultAgent :: _ =>
        ⟨.connect defaultAgent (jsOrStr defaultAgent.greeting defaultGreeting),
          some (mkSession cfg defaultAgent meta)⟩
  | some menu =>
      ⟨.ivrPrompt menu.greeting_text (jsOrNat menu.timeout_seconds 10),
        some { clientConfig := cfg, selectedAgent := none,
               ivrContext := some { menuId := some menu.id, attempts := 0 },
               callType := "inbound", fromNumber := meta.fromNumber,
               toNumber := meta.toNumber }⟩

/-- `handleExternalIntegration`: dispatch on the first integration row; `sip`
dials a SIP URI, `extension` maps `Digits` through `extension_map` to an
agent, `forwarding` connects a statically configured agent; with no
integration rows, fall back to the first agent. -/
def handleExternalIntegration (cfg : ClientConfig) (meta : CallMeta) :
    RouteResult :=
  match cfg.externalIntegrations with
  | [] =>
    match cfg.agents with
    | [] => ⟨.sayError "Sorry, external integration is not configured properly.", none⟩
    | defaultAgent :: _ =>
        ⟨.connect defaultAgent (jsOrStr defaultAgent.greeting defaultGreeting),
          some (mkSession cfg defaultAgent meta)⟩
  | integration :: _ =>
    if integration.integration_type = "sip" then
      match truthyStr integration.sip_uri with
      | none => ⟨.sayError "Sorry, SIP integration is not configured properly.", none⟩
      | some uri => ⟨.dialSip uri, none⟩
    else if integration.integration_type = "extension" then
      match truthyStr meta.digits with
      | none => ⟨.sayError "Sorry, no extension was provided.", none⟩
      | some ext =>
        match truthyNat (integration.extension_map.lookup ext) with
        | none => ⟨.sayError "Sorry, that extension is not valid.", none⟩
        | some agentId =>
          match cfg.agents.find? (fun a => a.id == agentId) with
          | none => ⟨.sayError "Sorry, the AI agent for this extension is not available.", none⟩
          | some agent =>
              ⟨.connect agent (jsOrStr agent.greeting defaultGreeting),
                some (mkSession cfg agent meta)⟩
    else if integration.integration_type = "forwarding" then
      match truthyNat integration.agent_id with
      | none => ⟨.sayError "Sorry, forwarding is not configured properly.", none⟩
      | some aid =>
        match cfg.agents.find? (fun a => a.id == aid) with
        | none => ⟨.sayError "Sorry, the AI agent is not available.", none⟩
        | some agent =>
            ⟨.connect agent (jsOrStr agent.greeting defaultGreeting),
              some (mkSession cfg agent meta)⟩
    else ⟨.sayError "Sorry, this integration type is not supported.", none⟩

/-- JS `Number(str)` on one piece of the split time string: a nonempty
digit string yields its value; any non-digit character yields `none`,
modelling NaN (which poisons the business-hours comparisons to `false`).
Implemented on the character list so that it reduces inside the kernel. -/
def natOfChars (cs : List Char) : Option Nat :=
  match cs with
  | [] => none
  | _ =>
    cs.foldl (fun acc c =>
      match acc with
      | none => none
      | some n => if c.isDigit then some (n * 10 + (c.toNat - 48)) else none)
      (some 0)

/-- `split(':')` on the character list of the time string. -/
def splitOnColon (cs : List Char) : List (List Char) :=
  match cs with
  | [] => [[]]
  | c :: rest =>
    let r := splitOnColon rest
    if c = ':' then [] :: r
    else
      match r with
      | [] => [[c]]
      | h :: t => (c :: h) :: t

/-- Parse an `"HH:MM"` time string into minutes the way the source does with
`split(':').map(Number)` and `h * 60 + m`; a malformed string yields `none`,
matching the JS behavior that NaN poisons the comparisons to `false`. -/
def hmToMinutes (s : String) : Option Nat :=
  match splitOnColon s.data with
  | [h, m] =>
    match natOfChars h, natOfChars m with
    | some hh, some mm => some (hh * 60 + mm)
    | _, _ => none
  | _ => none

/-- One step of the agent-scanning loop of `handleTimeBasedRouting`: the first
`general` agent becomes the business-hours agent, the last `after_hours`
agent becomes the after-hours agent. -/
def pickAgentsStep (p : Option Agent × Option Agent) (a : Agent) :
    Option Agent × Option Agent :=
  if a.agent_type = "general" then
    match p.1 with
    | none => (some a, p.2)
    | some _ => p
  else if a.agent_type = "after_hours" then (p.1, some a)
  else p

/-- The agent-scanning loop of `handleTimeBasedRouting`. -/
def pickAgents (agents : List Agent) : Option Agent × Option Agent :=
  agents.foldl pickAgentsStep (none, none)

/-- The loop result with the two fallbacks applied: a missing business-hours
agent is replaced by `agents[0]`, a missing after-hours agent by the
business-hours agent (both only when the agent list is nonempty). -/
def businessAndAfterAgents (agents : List Agent) :
    Option Agent × Option Agent :=
  let p := pickAgents agents
  let bh := match p.1 with
    | some a => some a
    | none => agents.head?
  let ah := match p.2 with
    | some a => some a
    | none => if agents.isEmpty then none else bh
  (bh, ah)

/-- The `dayMap` object literal of `handleTimeBasedRouting`, keyed by full
English day names. -/
def dayMap : List (String × Nat) :=
  [("Sunday", 0), ("Monday", 1), ("Tuesday", 2), ("Wednesday", 3),
   ("Thursday", 4), ("Friday", 5), ("Saturday", 6)]

/-- The values ECMA-402 permits for the `weekday` option of
`Intl.DateTimeFormat`; constructing a formatter with any other value throws
a RangeError. -/
def validWeekdayOptions : List String := ["narrow", "short", "long"]

/-- The `weekday` option value the source passes to its weekday formatter. -/
def WEEKDAY_OPTION : String := "numeric"

/-- The exception message of the weekday-formatter construction. -/
def weekdayRangeError : String :=
  "RangeError: Value numeric out of range for Intl.DateTimeFormat options property weekday"

/-- The business-hours classification block of `handleTimeBasedRouting`:
the derived `dayOfWeek` (`dayMap[clientDay]`, which can be `undefined`,
hence `Option`) must be in the business-hours agent's `business_days`
(default Monday through Friday; `includes(undefined)` on a number array is
`false`, the `none` case), and the local time of day must lie between
`business_hours_start` and `business_hours_end` (defaults 09:00 and 17:00),
both comparisons inclusive (`>=` and `<=` in the source). -/
def computeIsBusinessHours (bh : Option Agent) (dayOfWeek : Option Nat)
    (currentHour currentMinute : Nat) : Bool :=
  let businessDays := (bh.bind Agent.business_days).getD [1, 2, 3, 4, 5]
  let isBusinessDay := match dayOfWeek with
    | some d => businessDays.contains d
    | none => false
  if isBusinessDay then
    let startStr := jsOrStr (bh.bind Agent.business_hours_start) "09:00"
    let endStr := jsOrStr (bh.bind Agent.business_hours_end) "17:00"
    let currentMinutes := currentHour * 60 + currentMinute
    match hmToMinutes startStr, hmToMinutes endStr with
    | some startMinutes, some endMinutes =>
        decide (startMinutes ≤ currentMinutes) &&
          decide (currentMinutes ≤ endMinutes)
    | _, _ => false
  else false

/-- `handleTimeBasedRouting`: the source first constructs a weekday
formatter with `weekday: 'numeric'`.  That option value is invalid, so the
constructor throws a RangeError and the handler dies before any
classification: the guard below is decidably false and every `time_based`
call takes the exception branch.  The unreachable remainder — which would
key `dayMap[clientDay]` (yielding `undefined` even on an engine tolerating
the option, since the map is name-keyed), classify, select the
business-hours or after-hours agent, connect and store the session — is
embedded under the dead guard. -/
def handleTimeBasedRouting (cfg : ClientConfig) (meta : CallMeta) :
    RouteResult :=
  if validWeekdayOptions.contains WEEKDAY_OPTION then
    let dayOfWeek := dayMap.lookup meta.clientDay
    let p := businessAndAfterAgents cfg.agents
    let isBusinessHours :=
      computeIsBusinessHours p.1 dayOfWeek meta.currentHour
        meta.currentMinute
    let selectedAgent := if isBusinessHours then p.1 else p.2
    match selectedAgent with
    | none => ⟨.sayError "Sorry, no agents are available at this time. Please call back during business hours.", none⟩
    | some agent =>
        ⟨.connect agent (jsOrStr agent.greeting defaultGreeting),
          some (mkSession cfg agent meta)⟩
  else ⟨.jsError weekdayRangeError, none⟩

/-- The `/webhook/voice` handler: reject when no configuration resolves;
otherwise the direct number binding takes priority (returning before the
strategy switch), and only without a binding is the routing strategy
dispatched. -/
def webhookVoice (cfgOpt : Option ClientConfig) (meta : CallMeta) :
    RouteResult :=
  match cfgOpt with
  | none => ⟨.sayError "Sorry, this number is not configured properly.", none⟩
  | some clientConfig =>
    match truthyNat clientConfig.phoneNumber.agent_id with
    | some boundId =>
      match clientConfig.agents.find? (fun a => a.id == boundId) with
      | none => ⟨.sayError "Sorry, the AI agent for this number is not available.", none⟩
      | some agent =>
          ⟨.connect agent (jsOrStr agent.greeting defaultGreeting),
            some (mkSession clientConfig agent meta)⟩
    | none =>
      if clientConfig.routingStrategy = "single_number_ivr" then
        handleIVRRouting clientConfig meta
      else if clientConfig.routingStrategy = "external_integration" then
        handleExternalIntegration clientConfig meta
      else if clientConfig.routingStrategy = "time_based" then
        handleTimeBasedRouting clientConfig meta
      else defaultRouting clientConfig meta

/-- The invalid-selection re-prompt text of `/webhook/ivr-selection`. -/
def invalidSelectionText (menuGreeting : String) : String :=
  "Sorry, that\x27s not a valid option. " ++ menuGreeting

/-- The `/webhook/ivr-selection` handler: look up the session, match the
digit against the menu options; on no match increment the attempt count and
either fall back to `agents[0]` (clearing `ivrContext`) once the count
reaches `max_attempts` (default 3) or re-prompt with the updated count; on a
match dispatch on the option's action type. -/
def webhookIvrSelection (sessionOpt : Option CallSession) (digits : String) :
    RouteResult :=
  match sessionOpt with
  | none => ⟨.sayError "Sorry, there was an error processing your selection. Please call back.", none⟩
  | some callSession =>
    match callSession.clientConfig.ivrMenu with
    | none => ⟨.jsError "TypeError: cannot read properties of null (reading ivr_options)", none⟩
    | some menu =>
      match menu.ivr_options.find? (fun o => o.digit == digits) with
      | none =>
        let attempts :=
          (match callSession.ivrContext with
           | some c => c.attempts
           | none => 0) + 1
        if jsOrNat menu.max_attempts 3 ≤ attempts then
          match callSession.clientConfig.agents with
          | [] => ⟨.sayError "Sorry, no agents are available. Please try again later.", none⟩
          | defaultAgent :: _ =>
              ⟨.connectMsg defaultAgent "I\x27ll connect you with our general assistant.",
                some { callSession with
                       selectedAgent := some defaultAgent,
                       ivrContext := none }⟩
        else
          ⟨.ivrPrompt (invalidSelectionText menu.greeting_text)
              (jsOrNat menu.timeout_seconds 10),
            some { callSession with
                   ivrContext := some
                     { menuId := callSession.ivrContext.bind IvrContext.menuId,
                       attempts := attempts } }⟩
      | some selectedOption =>
        if selectedOption.action_type = "agent" then
          match (match selectedOption.agent_id with
                 | some aid =>
                     callSession.clientConfig.agents.find?
                       (fun a => a.id == aid)
                 | none => none) with
          | none => ⟨.sayError "Sorry, the selected department is not available. Please try again later.", none⟩
          | some selectedAgent =>
              ⟨.connect selectedAgent
                  (jsOrStr selectedAgent.greeting defaultGreeting),
                some { callSession with
                       selectedAgent := some selectedAgent,
                       ivrContext := none }⟩
        else if selectedOption.action_type = "transfer" then
          match truthyStr selectedOption.action_phone_number with
          | none => ⟨.sayError "Sorry, the transfer number is not configured properly.", none⟩
          | some transferNumber => ⟨.dialNumber transferNumber, none⟩
        else if selectedOption.action_type = "voicemail" then
          ⟨.voicemailPrompt, none⟩
        else ⟨.sayError "Sorry, that option is not available.", none⟩

/-- The `/webhook/ivr-timeout` handler: fall back to `agents[0]`, setting it
as the selected agent and clearing `ivrContext`. -/
def webhookIvrTimeout (sessionOpt : Option CallSession) : RouteResult :=
  match sessionOpt with
  | none => ⟨.sayError "Sorry, there was an error processing your call. Please call back.", none⟩
  | some callSession =>
    match callSession.clientConfig.agents with
    | [] => ⟨.sayError "Sorry, no agents are available. Please try again later.", none⟩
    | defaultAgent :: _ =>
        ⟨.connectMsg defaultAgent "I\x27ll connect you with our assistant.",
          some { callSession with
                 selectedAgent := some defaultAgent,
                 ivrContext := none }⟩

/-- State the Twilio socket object carries for one call, restricted to what
the lifecycle handlers read: the persisted call-log id (set when the record
was created), the billable client id (`socket.clientInfo.clientId`), and the
liveness of the two connections of the duplex link. -/
structure SocketState where
  callLogId : Option Nat
  clientId : Option Nat
  twilioOpen : Bool
  geminiOpen : Bool
deriving Repr, DecidableEq

/-- Lifecycle events of one call, in arrival order: the Twilio socket `close`
event carries the computed call duration in seconds; `twilioStop` is the
`stop` control message; the Gemini-side close and error events are delivered
to `geminiClient.onClose` / `geminiClient.onError`. -/
inductive CallEvent where
  | twilioClose (durationSeconds : Nat)
  | twilioStop
  | geminiClose
  | geminiError
deriving Repr, DecidableEq

/-- Observable effects of the lifecycle handlers: the finalizing
`updateCallLog` write, the `incrementMinutesUsed` billing call, closing the
Gemini-side connection, and a console log line. -/
inductive Effect where
  | finalizeRecord (callLogId : Nat) (status : String)
      (durationSeconds : Nat)
  | incrementUsage (clientId : Nat) (minutes : Nat)
  | closeGemini
  | logEvent (msg : String)
deriving Repr, DecidableEq

/-- `Math.ceil(durationSeconds / 60)` on a non-negative integer duration. -/
def ceilMinutes (durationSeconds : Nat) : Nat := (durationSeconds + 59) / 60

/-- One lifecycle event handled, returning the emitted effects and the next
socket state.  Mirrors the handlers of the main server file: the Twilio
`close` handler finalizes the call log (when one was created), increments the
billable minutes (when a client profile is attached) and closes the Gemini
side; the `stop` message closes the Gemini side; the Gemini-side close and
error handlers only log. -/
def handleEvent (st : SocketState) (e : CallEvent) :
    List Effect × SocketState :=
  match e with
  | .twilioClose durationSeconds =>
    let effects :=
      (match st.callLogId with
       | some logId =>
         [Effect.finalizeRecord logId "completed" durationSeconds] ++
           (match st.clientId with
            | some clientId =>
                [Effect.incrementUsage clientId (ceilMinutes durationSeconds)]
            | none => [])
       | none => []) ++ [Effect.closeGemini]
    (effects, { st with twilioOpen := false, geminiOpen := false })
  | .twilioStop =>
      ([Effect.logEvent "Call stopped", Effect.closeGemini],
        { st with geminiOpen := false })
  | .geminiClose =>
      ([Effect.logEvent "Gemini Live client closed"],
        { st with geminiOpen := false })
  | .geminiError =>
      ([Effect.logEvent "Gemini Live client error"], st)

/-- All effects emitted while handling a list of lifecycle events in arrival
order. -/
def runEvents (st : SocketState) (evs : List CallEvent) : List Effect :=
  match evs with
  | [] => []
  | e :: rest =>
    let r := handleEvent st e
    r.1 ++ runEvents r.2 rest

/-- Is this effect the finalizing call-record update? -/
def isFinalize (e : Effect) : Bool :=
  match e with
  | .finalizeRecord _ _ _ => true
  | _ => false

/-- Number of Twilio-socket close events in a trace. -/
def countTwilioClose (evs : List CallEvent) : Nat :=
  (evs.filter fun e =>
    match e with
    | .twilioClose _ => true
    | _ => false).length

/-- A cache entry of the configuration resolver: the snapshot plus its
absolute expiry time in milliseconds. -/
structure CacheEntry where
  data : ClientConfig
  expiresAt : Nat
deriving Repr, DecidableEq

/-- The resolver cache, keyed by phone number. -/
abbrev ConfigCache := List (String × CacheEntry)

/-- The cache TTL constant of supabase-service.js: five minutes in
milliseconds. -/
def CACHE_TTL : Nat := 5 * 60 * 1000

/-- The database rows the resolver queries, keyed the way the source filters
them.  Agent, menu and integration rows carry their `profile_id` and
`is_active` columns. -/
structure AgentRow where
  profile_id : Nat
  is_active : Bool
  agent : Agent
deriving Repr, DecidableEq

structure IvrMenuRow where
  profile_id : Nat
  is_active : Bool
  menu : IvrMenu
deriving Repr, DecidableEq

structure IntegrationRow where
  profile_id : Nat
  is_active : Bool
  integration : ExternalIntegration
deriving Repr, DecidableEq

structure SupabaseDb where
  phone_numbers : List PhoneRow
  ai_agents : List AgentRow
  ivr_menus : List IvrMenuRow
  external_integrations : List IntegrationRow
deriving Repr, DecidableEq

/-- Supabase `.single()`: exactly one row, otherwise an error (which the
source turns into `null`). -/
def singleRow {α : Type} (rows : List α) : Option α :=
  match rows with
  | [row] => some row
  | _ => none

/-- The source-of-truth lookup path of `getClientConfigByPhoneNumber`: the
phone-number row (with joined profile) via `.single()`, then the tenant's
phone numbers, active agents, the active IVR menu (only for a primary number
of an `single_number_ivr` tenant) and active integrations, assembled by
`buildClientConfig`. -/
def queryClientConfig (db : SupabaseDb) (phoneNumber : String) :
    Option ClientConfig :=
  match singleRow
      (db.phone_numbers.filter fun r => r.phone_number == phoneNumber) with
  | none => none
  | some phoneData =>
    let clientProfile := phoneData.profile
    let allPhoneNumbers :=
      db.phone_numbers.filter fun r => r.profile_id == clientProfile.id
    let allAgents :=
      (db.ai_agents.filter fun r =>
        r.profile_id == clientProfile.id && r.is_active).map AgentRow.agent
    let ivrMenu :=
      if clientProfile.routing_strategy == some "single_number_ivr" &&
          phoneData.is_primary then
        (singleRow (db.ivr_menus.filter fun r =>
          r.profile_id == clientProfile.id && r.is_active)).map IvrMenuRow.menu
      else none
    let integrations :=
      (db.external_integrations.filter fun r =>
        r.profile_id == clientProfile.id && r.is_active).map
          IntegrationRow.integration
    some (buildClientConfig clientProfile phoneData allPhoneNumbers allAgents
      ivrMenu integrations)

/-- Result of one resolver call: the configuration (or `none` for NotFound /
error), whether the database was consulted, and the cache afterwards. -/
structure ResolveResult where
  result : Option ClientConfig
  dbQueried : Bool
  cacheAfter : ConfigCache
deriving Repr, DecidableEq

/-- The database branch of the resolver: query, and on success store the
snapshot in the cache with expiry `now + CACHE_TTL`. -/
def resolveViaDb (cache : ConfigCache) (now : Nat) (db : SupabaseDb)
    (phoneNumber : String) : ResolveResult :=
  match queryClientConfig db phoneNumber with
  | none => ⟨none, true, cache⟩
  | some config =>
      ⟨some config, true,
        (phoneNumber, ⟨config, now + CACHE_TTL⟩) :: cache⟩

/-- `getClientConfigByPhoneNumber`: consult the cache first; a fresh entry
(`expiresAt > now`) is returned verbatim with no database query; an expired
entry is deleted and the database consulted; a missing entry goes straight to
the database. -/
def getClientConfigByPhoneNumber (cache : ConfigCache) (now : Nat)
    (db : SupabaseDb) (phoneNumber : String) : ResolveResult :=
  match cache.lookup phoneNumber with
  | some cachedConfig =>
    if now < cachedConfig.expiresAt then
      ⟨some cachedConfig.data, false, cache⟩
    else
      resolveViaDb (cache.filter fun kv => !(kv.1 == phoneNumber)) now db
        phoneNumber
  | none => resolveViaDb cache now db phoneNumber

/-- One turn of the synthetic greeting directive. -/
structure ClientTurn where
  role : String
  text : String
deriving Repr, DecidableEq

/-- A `client_content` turn-injection message for the speech endpoint. -/
structure ClientContent where
  turns : List ClientTurn
  turn_complete : Bool
deriving Repr, DecidableEq

/-- The `initialMessage` literal sent by the `geminiLive.onReady` handler. -/
def initialGreetingMessage : ClientContent :=
  { turns := [{ role := "user",
                text := "Please greet the caller now. Say hello and ask how you can help them today." }],
    turn_complete := true }

/-- The fixed delay (milliseconds) of the `setTimeout` wrapping the greeting
directive. -/
def GREETING_DELAY_MS : Nat := 500

/-- The body of the handler assigned to `server.geminiLive.onReady` once its
timer fires: the directive is sent iff the socket still has a Gemini client
in ready state 1 (WebSocket OPEN).  No code in the repository ever invokes
`server.geminiLive.onReady` — the `GeminiLiveEvents` object it is registered
on is a locally defined plain record that nothing dispatches to — so this
handler is dead code; see `greetingsSentPerCall`. -/
def onGeminiReady (geminiPresent : Bool) (readyState : Nat) :
    List ClientContent :=
  if geminiPresent && readyState == 1 then [initialGreetingMessage] else []

/-- The synthetic-greeting directives actually sent to the speech endpoint
for one call under the wiring in the repository.  The readiness callback the
connection handler installs on the per-call Gemini client — the only
readiness callback the client delivers to — is the log-only closure
`geminiClient.onReady = () => console.log(...)`, and the greeting sender
`onGeminiReady` is registered on `server.geminiLive.onReady`, which nothing
invokes.  So whether or not the speech side becomes ready, no directive is
sent. -/
def greetingsSentPerCall (becameReady : Bool) : List ClientContent :=
  match becameReady with
  | true => []
  | false => []

theorem jsOrBool_default_true (v : Option Bool) : jsOrBool v true = true := by
  cases v with
  | none => rfl
  | some b => cases b <;> rfl

/-- C10: every configuration assembled by the Configuration Resolver has
`recordingEnabled = true` and `transcriptionEnabled = true`, whatever the
stored profile values, because `call_recording_enabled || true` and
`transcription_enabled || true` can never evaluate to `false`; in particular
a tenant that has disabled recording or transcription (fields `false`) still
resolves with both flags enabled. -/
theorem recording_flags_always_true
    (profile : Profile) (phoneData : PhoneRow) (phones : List PhoneRow)
    (agents : List Agent) (menu : Option IvrMenu)
    (integrations : List ExternalIntegration) :
    (buildClientConfig profile phoneData phones agents menu
        integrations).recordingEnabled = true ∧
    (buildClientConfig profile phoneData phones agents menu
        integrations).transcriptionEnabled = true ∧
    (∀ db p cfg, queryClientConfig db p = some cfg →
      cfg.recordingEnabled = true ∧ cfg.transcriptionEnabled = true) := by
  refine ⟨jsOrBool_default_true _, jsOrBool_default_true _, ?_⟩
  intro db p cfg h
  unfold queryClientConfig at h
  cases hrow : singleRow
      (db.phone_numbers.filter fun r => r.phone_number == p) with
  | none => rw [hrow] at h; exact absurd h (by simp)
  | some row =>
    rw [hrow] at h
    simp only [Option.some.injEq] at h
    subst h
    exact ⟨jsOrBool_default_true _, jsOrBool_default_true _⟩

/-- C4: on Twilio-socket close with a call log created and a billable client
profile attached, the handler emits the finalizing update and one usage
increment of `Math.ceil(durationSeconds / 60)` minutes, which is exactly the
least whole-minute count covering the duration. -/
theorem usage_ceiling_minutes
    (st : SocketState) (logId clientId durationSeconds : Nat)
    (hlog : st.callLogId = some logId)
    (hclient : st.clientId = some clientId) :
    (handleEvent st (.twilioClose durationSeconds)).1 =
      [.finalizeRecord logId "completed" durationSeconds,
       .incrementUsage clientId (ceilMinutes durationSeconds),
       .closeGemini] ∧
    durationSeconds ≤ 60 * ceilMinutes durationSeconds ∧
    (∀ k, durationSeconds ≤ 60 * k → ceilMinutes durationSeconds ≤ k) := by
  refine ⟨by simp [handleEvent, hlog, hclient], ?_, ?_⟩
  · unfold ceilMinutes; omega
  · intro k hk; unfold ceilMinutes; omega

/-- C4 witness: a 61-second call increments usage by 2 minutes and a
60-second call by exactly 1 minute. -/
theorem usage_ceiling_minutes_witness :
    (handleEvent ⟨some 7, some 3, true, true⟩ (.twilioClose 61)).1 =
      [.finalizeRecord 7 "completed" 61, .incrementUsage 3 2,
       .closeGemini] ∧
    ceilMinutes 61 = 2 ∧ ceilMinutes 60 = 1 := by
  have h := usage_ceiling_minutes ⟨some 7, some 3, true, true⟩ 7 3 61 rfl rfl
  exact ⟨h.1.trans (by decide), by decide, by decide⟩

theorem handleEvent_preserves_ids (st : SocketState) (e : CallEvent) :
    ((handleEvent st e).2).callLogId = st.callLogId ∧
    ((handleEvent st e).2).clientId = st.clientId := by
  cases e <;> exact ⟨rfl, rfl⟩

theorem finalize_count_runEvents (evs : List CallEvent) (st : SocketState) :
    ((runEvents st evs).filter isFinalize).length =
      (if st.callLogId.isSome then countTwilioClose evs else 0) := by
  induction evs generalizing st with
  | nil => simp [runEvents, countTwilioClose]
  | cons e rest ih =>
    have hpres := handleEvent_preserves_ids st e
    cases e with
    | twilioClose d =>
      cases hlog : st.callLogId with
      | none =>
        cases hcli : st.clientId <;>
          simp_all [runEvents, handleEvent, countTwilioClose, isFinalize, ih]
      | some logId =>
        cases hcli : st.clientId <;>
          simp_all [runEvents, handleEvent, countTwilioClose, isFinalize, ih]
    | twilioStop =>
        simp_all [runEvents, handleEvent, countTwilioClose, isFinalize, ih]
    | geminiClose =>
        simp_all [runEvents, handleEvent, countTwilioClose, isFinalize, ih]
    | geminiError =>
        simp_all [runEvents, handleEvent, countTwilioClose, isFinalize, ih]

/-- C5: over any arrival order of the per-call lifecycle events in which the
Twilio socket closes exactly once (every completed call), a call whose record
was created receives exactly one finalizing call-log update: never two, never
zero, regardless of whether the speech side closed or errored before or after
the telephony side. -/
theorem finalize_exactly_once
    (st : SocketState) (evs : List CallEvent) (logId : Nat)
    (hlog : st.callLogId = some logId)
    (honce : countTwilioClose evs = 1) :
    ((runEvents st evs).filter isFinalize).length = 1 := by
  rw [finalize_count_runEvents, hlog, honce]
  rfl

/-- C5 witness: with a created record, the speech side closing first and the
telephony side closing first both yield exactly one finalizing update. -/
theorem finalize_exactly_once_witness :
    ((runEvents ⟨some 5, some 9, true, true⟩
        [.geminiClose, .twilioClose 61]).filter isFinalize).length = 1 ∧
    ((runEvents ⟨some 5, some 9, true, true⟩
        [.twilioClose 61, .geminiClose]).filter isFinalize).length = 1 :=
  ⟨finalize_exactly_once ⟨some 5, some 9, true, true⟩
      [.geminiClose, .twilioClose 61] 5 rfl (by decide),
   by decide⟩

/-- C8 counterexample: with the telephony side still open (and a record and
client attached), the Gemini-side close handler only logs: the resulting
state still has the telephony connection open, and the Gemini-side error
handler likewise leaves it open — the claimed teardown of the telephony side
does not happen. -/
theorem gemini_close_no_teardown_cex :
    (handleEvent ⟨some 1, some 1, true, true⟩ .geminiClose).2.twilioOpen
        = true ∧
    (handleEvent ⟨some 1, some 1, true, true⟩ .geminiClose).1 =
      [.logEvent "Gemini Live client closed"] ∧
    (handleEvent ⟨some 1, some 1, true, true⟩ .geminiError).2.twilioOpen
        = true ∧
    (handleEvent ⟨some 1, some 1, true, true⟩ .geminiError).1 =
      [.logEvent "Gemini Live client error"] := by
  decide

/-- C8 amended: when the speech-endpoint connection closes or errors while
the telephony connection is still open, the relay logs the event but does
not tear down the telephony side: the Twilio connection remains open and no
effect beyond the log line is emitted. -/
theorem gemini_close_logs_only (st : SocketState)
    (h : st.twilioOpen = true) :
    (handleEvent st .geminiClose).1 =
      [.logEvent "Gemini Live client closed"] ∧
    (handleEvent st .geminiClose).2 = { st with geminiOpen := false } ∧
    (handleEvent st .geminiClose).2.twilioOpen = true ∧
    (handleEvent st .geminiError).1 =
      [.logEvent "Gemini Live client error"] ∧
    (handleEvent st .geminiError).2 = st :=
  ⟨rfl, rfl, h, rfl, rfl⟩

/-- C8 amended witness. -/
theorem gemini_close_logs_only_witness :
    (handleEvent ⟨some 2, none, true, true⟩ .geminiClose).2.twilioOpen
      = true :=
  (gemini_close_logs_only ⟨some 2, none, true, true⟩ rfl).2.2.1

/-- C9 (code bug): the synthetic please-greet-the-caller directive is never
sent.  The readiness callback actually delivered to — the per-call
`geminiClient.onReady` — only logs, and the greeting sender is registered on
`server.geminiLive.onReady`, which no code in the repository invokes; so
whether or not the speech side becomes ready, zero directives are sent
(first conjunct).  The dead handler itself would have implemented the
claimed behavior: invoked with the connection still OPEN, it sends exactly
one `client_content` turn with `turn_complete = true` after the fixed 500 ms
delay (remaining conjuncts). -/
theorem greeting_never_sent :
    (∀ becameReady : Bool, greetingsSentPerCall becameReady = []) ∧
    greetingsSentPerCall true ≠ [initialGreetingMessage] ∧
    onGeminiReady true 1 = [initialGreetingMessage] ∧
    (onGeminiReady true 1).length = 1 ∧
    initialGreetingMessage.turn_complete = true ∧
    GREETING_DELAY_MS = 500 := by
  refine ⟨fun b => ?_, by decide, rfl, rfl, rfl, rfl⟩
  cases b <;> rfl

/-- C1: when the dialed number's row carries a direct agent binding
(`agent_id` set, hence JS-truthy) and that agent is present in the tenant's
agent list, the voice webhook returns the connect-now decision for exactly
that agent and stores a session whose `selectedAgent` is that agent, for
every tenant configuration (hence every routing strategy); the decision does
not depend on `routingStrategy`, because the direct branch returns before
the strategy switch. -/
theorem direct_binding_priority
    (cfg : ClientConfig) (meta : CallMeta) (boundId : Nat) (agent : Agent)
    (hset : cfg.phoneNumber.agent_id = some boundId)
    (hnz : boundId ≠ 0)
    (hfind : cfg.agents.find? (fun a => a.id == boundId) = some agent) :
    webhookVoice (some cfg) meta =
      ⟨.connect agent (jsOrStr agent.greeting defaultGreeting),
        some (mkSession cfg agent meta)⟩ ∧
    ((webhookVoice (some cfg) meta).stored.map CallSession.selectedAgent) =
      some (some agent) ∧
    (∀ s : String,
      (webhookVoice (some { cfg with routingStrategy := s }) meta).decision =
        (webhookVoice (some cfg) meta).decision) := by
  have hb : truthyNat cfg.phoneNumber.agent_id = some boundId := by
    simp [truthyNat, hset, hnz]
  have hmain : webhookVoice (some cfg) meta =
      ⟨.connect agent (jsOrStr agent.greeting defaultGreeting),
        some (mkSession cfg agent meta)⟩ := by
    simp [webhookVoice, hb, hfind]
  refine ⟨hmain, by rw [hmain]; rfl, ?_⟩
  intro s
  simp [webhookVoice, hb, hfind]

/-- First concrete agent used by the witnesses. -/
def a1 : Agent :=
  { id := 1, name := "A1", agent_type := "general",
    greeting := some "Hi from A1", language_code := none,
    voice_name := none, system_instruction := none, business_days := none,
    business_hours_start := none, business_hours_end := none }

/-- Concrete tenant profile used by the witnesses. -/
def p1 : Profile :=
  { id := 10, client_name := some "Acme", full_name := none,
    routing_strategy := some "single_number_ivr",
    call_recording_enabled := some false,
    transcription_enabled := some false, max_concurrent_calls := none,
    monthly_minute_limit := none, minutes_used := none }

/-- Concrete phone-number row with a direct binding to agent 1. -/
def directPhone : PhoneRow :=
  { phone_number := "+15550001111", profile_id := 10, agent_id := some 1,
    is_primary := true, profile := p1 }

/-- Concrete resolved configuration with an `single_number_ivr` strategy and
a directly bound number. -/
def directCfg : ClientConfig :=
  { clientId := 10, clientName := some "Acme",
    routingStrategy := "single_number_ivr", phoneNumber := directPhone,
    allPhoneNumbers := [directPhone], agents := [a1], ivrMenu := none,
    externalIntegrations := [], recordingEnabled := true,
    transcriptionEnabled := true, maxConcurrentCalls := 5,
    minutesLimit := 1000, minutesUsed := 0 }

/-- Concrete call metadata used by the witnesses. -/
def meta0 : CallMeta :=
  { fromNumber := "+15550002222", toNumber := "+15550001111",
    digits := none, clientDay := "Monday", currentHour := 10,
    currentMinute := 0 }

/-- C1 witness: the tenant's strategy is `single_number_ivr`, yet the call
connects directly to the bound agent A1. -/
theorem direct_binding_priority_witness :
    webhookVoice (some directCfg) meta0 =
      ⟨.connect a1 "Hi from A1", some (mkSession directCfg a1 meta0)⟩ ∧
    directCfg.routingStrategy = "single_number_ivr" ∧
    (mkSession directCfg a1 meta0).selectedAgent = some a1 := by
  have h := direct_binding_priority directCfg meta0 1 a1 rfl (by decide)
    (by decide)
  exact ⟨h.1.trans (by decide), by decide, by decide⟩

/-- C2: an IVR digit submission against an existing session with IVR context
whose digit matches no menu option increments the attempt count by one; when
the incremented count reaches `max_attempts` (default 3) the handler falls
back to the tenant's first configured agent, clearing `ivrContext`;
otherwise it re-issues the prompt with the invalid-selection prefix, storing
the incremented count in `ivrContext.attempts`. -/
theorem ivr_invalid_digit_retry_fallback
    (s : CallSession) (menu : IvrMenu) (ctx : IvrContext) (digits : String)
    (a0 : Agent) (rest : List Agent)
    (hmenu : s.clientConfig.ivrMenu = some menu)
    (hctx : s.ivrContext = some ctx)
    (hnomatch : menu.ivr_options.find? (fun o => o.digit == digits) = none)
    (hagents : s.clientConfig.agents = a0 :: rest) :
    (jsOrNat menu.max_attempts 3 ≤ ctx.attempts + 1 →
      webhookIvrSelection (some s) digits =
        ⟨.connectMsg a0 "I\x27ll connect you with our general assistant.",
          some { s with selectedAgent := some a0, ivrContext := none }⟩) ∧
    (ctx.attempts + 1 < jsOrNat menu.max_attempts 3 →
      webhookIvrSelection (some s) digits =
        ⟨.ivrPrompt (invalidSelectionText menu.greeting_text)
            (jsOrNat menu.timeout_seconds 10),
          some { s with
                 ivrContext := some ⟨ctx.menuId, ctx.attempts + 1⟩ }⟩) := by
  constructor
  · intro hmax
    simp [webhookIvrSelection, hmenu, hctx, hnomatch, hagents, hmax]
  · intro hlt
    have hmax : ¬ jsOrNat menu.max_attempts 3 ≤ ctx.attempts + 1 := by omega
    simp [webhookIvrSelection, hmenu, hctx, hnomatch, hagents, hmax]

/-- Second concrete agent used by the witnesses. -/
def a2 : Agent :=
  { id := 2, name := "A2", agent_type := "general",
    greeting := some "Sales here", language_code := none,
    voice_name := none, system_instruction := none, business_days := none,
    business_hours_start := none, business_hours_end := none }

/-- Concrete IVR menu: digit 2 routes to agent 2, `max_attempts = 3`. -/
def menu1 : IvrMenu :=
  { id := 4, name := "Main", greeting_text := "Press 2 for sales.",
    timeout_seconds := some 10, max_attempts := some 3,
    ivr_options := [{ id := 1, digit := "2", action_type := "agent",
                      agent_id := some 2, action_phone_number := none }] }

/-- Concrete primary phone-number row with no direct binding. -/
def ivrPhone : PhoneRow :=
  { phone_number := "+15550003333", profile_id := 10, agent_id := none,
    is_primary := true, profile := p1 }

/-- Concrete `single_number_ivr` configuration with an active menu. -/
def ivrCfg : ClientConfig :=
  { clientId := 10, clientName := some "Acme",
    routingStrategy := "single_number_ivr", phoneNumber := ivrPhone,
    allPhoneNumbers := [ivrPhone], agents := [a1, a2],
    ivrMenu := some menu1, externalIntegrations := [],
    recordingEnabled := true, transcriptionEnabled := true,
    maxConcurrentCalls := 5, minutesLimit := 1000, minutesUsed := 0 }

/-- The session stored on IVR entry, with `n` accumulated attempts. -/
def ivrSession (n : Nat) : CallSession :=
  { clientConfig := ivrCfg, selectedAgent := none,
    ivrContext := some ⟨some 4, n⟩, callType := "inbound",
    fromNumber := "+15550002222", toNumber := "+15550003333" }

/-- C2 witness: with `max_attempts = 3`, invalid digit 9 re-prompts with
`attempts = 1` after the first attempt and `attempts = 2` after the second,
and the third consecutive invalid digit (not a fourth) falls back to the
first configured agent with `ivrContext` cleared. -/
theorem ivr_invalid_digit_retry_fallback_witness :
    webhookIvrSelection (some (ivrSession 0)) "9" =
      ⟨.ivrPrompt (invalidSelectionText menu1.greeting_text) 10,
        some (ivrSession 1)⟩ ∧
    webhookIvrSelection (some (ivrSession 1)) "9" =
      ⟨.ivrPrompt (invalidSelectionText menu1.greeting_text) 10,
        some (ivrSession 2)⟩ ∧
    webhookIvrSelection (some (ivrSession 2)) "9" =
      ⟨.connectMsg a1 "I\x27ll connect you with our general assistant.",
        some { ivrSession 2 with
               selectedAgent := some a1,
               ivrContext := none }⟩ := by
  have h := (ivr_invalid_digit_retry_fallback (ivrSession 2) menu1
    ⟨some 4, 2⟩ "9" a1 [a2] rfl rfl (by decide) rfl).1 (by decide)
  exact ⟨by decide, by decide, h⟩

/-- The business-hours agent of the C3 theorem: business days Monday through
Friday, hours 09:00 to 17:00. -/
def dayAgent : Agent :=
  { id := 5, name := "Day", agent_type := "general", greeting := none,
    language_code := none, voice_name := none, system_instruction := none,
    business_days := some [1, 2, 3, 4, 5],
    business_hours_start := some "09:00",
    business_hours_end := some "17:00" }

/-- The after-hours agent of the C3 theorem. -/
def nightAgent : Agent :=
  { id := 6, name := "Night", agent_type := "after_hours",
    greeting := none, language_code := none, voice_name := none,
    system_instruction := none, business_days := none,
    business_hours_start := none, business_hours_end := none }

/-- Concrete `time_based` configuration for the C3 theorem. -/
def timeCfg : ClientConfig :=
  { clientId := 10, clientName := some "Acme",
    routingStrategy := "time_based",
    phoneNumber := { phone_number := "+15550004444", profile_id := 10,
                     agent_id := none, is_primary := true, profile := p1 },
    allPhoneNumbers := [], agents := [dayAgent, nightAgent],
    ivrMenu := none, externalIntegrations := [], recordingEnabled := true,
    transcriptionEnabled := true, maxConcurrentCalls := 5,
    minutesLimit := 1000, minutesUsed := 0 }

/-- Call metadata for the C3 theorem, at a given weekday-formatter output
string and local time. -/
def timeMeta (day : String) (h m : Nat) : CallMeta :=
  { fromNumber := "+15550002222", toNumber := "+15550004444",
    digits := none, clientDay := day, currentHour := h, currentMinute := m }

/-- C3 (code bug): the time-based branch can never perform the claimed
business-hours classification.  The source constructs its weekday formatter
with `weekday: 'numeric'`, an invalid ECMA-402 option value, so the
constructor throws a RangeError and the handler fails before classifying:
every `time_based` call — here local Monday 09:00 against business days
Monday to Friday, hours 09:00 to 17:00 — ends in the exception branch with
no session stored (first two conjuncts).  Even an engine tolerating the
option would format a numeral string, which the name-keyed `dayMap` maps to
`undefined`, classifying Monday 09:00 as outside business hours, contrary
to the claim (third and fourth conjuncts).  The comparison block itself is
inclusive on both bounds exactly as the claim intends once given the real
Monday value 1: 09:00 and 17:00 are business hours, 17:01 and Saturday
10:00 are not (last four conjuncts). -/
theorem time_based_dayofweek_bug :
    validWeekdayOptions.contains WEEKDAY_OPTION = false ∧
    handleTimeBasedRouting timeCfg (timeMeta "1" 9 0) =
      ⟨.jsError weekdayRangeError, none⟩ ∧
    dayMap.lookup "1" = none ∧
    computeIsBusinessHours (some dayAgent) (dayMap.lookup "1") 9 0 =
      false ∧
    computeIsBusinessHours (some dayAgent) (some 1) 9 0 = true ∧
    computeIsBusinessHours (some dayAgent) (some 1) 17 0 = true ∧
    computeIsBusinessHours (some dayAgent) (some 1) 17 1 = false ∧
    computeIsBusinessHours (some dayAgent) (some 6) 10 0 = false := by
  decide

/-- C6: the cache TTL is fixed at five minutes; a cached entry whose expiry
lies strictly in the future is returned verbatim with no database query and
an unchanged cache; and when no cache entry is fresh and no phone-number row
matches, the resolver queries the database and returns NotFound (`none`). -/
theorem resolver_cache_and_notfound
    (cache : ConfigCache) (now : Nat) (db : SupabaseDb) (p : String) :
    CACHE_TTL = 5 * 60 * 1000 ∧
    (∀ e, cache.lookup p = some e → now < e.expiresAt →
      getClientConfigByPhoneNumber cache now db p =
        ⟨some e.data, false, cache⟩) ∧
    ((∀ e, cache.lookup p = some e → e.expiresAt ≤ now) →
      db.phone_numbers.filter (fun r => r.phone_number == p) = [] →
      (getClientConfigByPhoneNumber cache now db p).result = none ∧
      (getClientConfigByPhoneNumber cache now db p).dbQueried = true) := by
  refine ⟨rfl, ?_, ?_⟩
  · intro e he hlt
    simp [getClientConfigByPhoneNumber, he, hlt]
  · intro hstale hnorow
    have hq : queryClientConfig db p = none := by
      simp [queryClientConfig, hnorow, singleRow]
    cases hl : cache.lookup p with
    | none =>
      simp [getClientConfigByPhoneNumber, hl, resolveViaDb, hq]
    | some e =>
      have hle := hstale e hl
      have hnlt : ¬ now < e.expiresAt := by omega
      simp [getClientConfigByPhoneNumber, hl, hnlt, resolveViaDb, hq]

/-- The empty database used by the C6 witness. -/
def emptyDb : SupabaseDb :=
  { phone_numbers := [], ai_agents := [], ivr_menus := [],
    external_integrations := [] }

/-- C6 witness: a fresh cache entry is served verbatim without touching the
database, and a number with no row resolves to NotFound through a database
query. -/
theorem resolver_cache_and_notfound_witness :
    getClientConfigByPhoneNumber [("+15550001111", ⟨directCfg, 1000⟩)] 500
        emptyDb "+15550001111" =
      ⟨some directCfg, false, [("+15550001111", ⟨directCfg, 1000⟩)]⟩ ∧
    (getClientConfigByPhoneNumber [] 0 emptyDb "+15550009999").result =
      none ∧
    (getClientConfigByPhoneNumber [] 0 emptyDb "+15550009999").dbQueried =
      true := by
  have h1 := (resolver_cache_and_notfound
    [("+15550001111", ⟨directCfg, 1000⟩)] 500 emptyDb "+15550001111").2.1
    ⟨directCfg, 1000⟩ (by decide) (by decide)
  have h2 := (resolver_cache_and_notfound [] 0 emptyDb "+15550009999").2.2
    (by intro e he; simp [List.lookup] at he) rfl
  exact ⟨h1, h2.1, h2.2⟩



theorem defaultRouting_stored_inv (cfg : ClientConfig) (meta : CallMeta)
    (st : CallSession) (h : (defaultRouting cfg meta).stored = some st) :
    ¬(st.selectedAgent.isSome = true ∧ st.ivrContext.isSome = true) := by
  unfold defaultRouting at h
  repeat' split at h
  all_goals first
    | (simp only [Option.some_inj] at h; subst h; simp_all [mkSession])
    | simp at h

theorem handleIVRRouting_stored_inv (cfg : ClientConfig) (meta : CallMeta)
    (st : CallSession) (h : (handleIVRRouting cfg meta).stored = some st) :
    ¬(st.selectedAgent.isSome = true ∧ st.ivrContext.isSome = true) := by
  unfold handleIVRRouting at h
  repeat' split at h
  all_goals first
    | (simp only [Option.some_inj] at h; subst h; simp_all [mkSession])
    | simp at h

theorem handleExternalIntegration_stored_inv (cfg : ClientConfig)
    (meta : CallMeta) (st : CallSession)
    (h : (handleExternalIntegration cfg meta).stored = some st) :
    ¬(st.selectedAgent.isSome = true ∧ st.ivrContext.isSome = true) := by
  unfold handleExternalIntegration at h
  repeat' split at h
  all_goals first
    | (simp only [Option.some_inj] at h; subst h; simp_all [mkSession])
    | simp at h

theorem handleTimeBasedRouting_stored_inv (cfg : ClientConfig)
    (meta : CallMeta) (st : CallSession)
    (h : (handleTimeBasedRouting cfg meta).stored = some st) :
    ¬(st.selectedAgent.isSome = true ∧ st.ivrContext.isSome = true) := by
  have hw : validWeekdayOptions.contains WEEKDAY_OPTION = false := by decide
  unfold handleTimeBasedRouting at h
  rw [hw] at h
  simp at h

/-- C7: session-state invariant of the routing and IVR operations.  A stored
session never simultaneously holds a selected agent and pending IVR
progress; each of the three agent-setting IVR operations (digit match,
max-attempts fallback, timeout fallback) clears any pending `ivrContext` in
the session it stores, and the timeout fallback always stores a selected
agent.  (A session holds at most one selected agent by construction: the
stored field is a single nullable value.) -/
theorem session_single_agent_invariant :
    (∀ (s st : CallSession) (digits : String),
      (webhookIvrSelection (some s) digits).stored = some st →
      st.selectedAgent ≠ s.selectedAgent → st.ivrContext = none) ∧
    (∀ (s st : CallSession),
      (webhookIvrTimeout (some s)).stored = some st →
      st.selectedAgent.isSome = true ∧ st.ivrContext = none) ∧
    (∀ (cfgOpt : Option ClientConfig) (meta : CallMeta) (st : CallSession),
      (webhookVoice cfgOpt meta).stored = some st →
      ¬(st.selectedAgent.isSome = true ∧ st.ivrContext.isSome = true)) := by
  refine ⟨?_, ?_, ?_⟩
  · intro s st digits h hne
    unfold webhookIvrSelection at h
    repeat' split at h
    all_goals first
      | (simp only [Option.some_inj] at h; subst h; simp_all)
      | ((try simp only [Option.some_inj] at h); split_ifs at h <;>
          (simp only [Option.some_inj] at h; subst h; simp_all))
      | simp at h
  · intro s st h
    unfold webhookIvrTimeout at h
    repeat' split at h
    all_goals first
      | (simp only [Option.some_inj] at h; subst h; simp_all)
      | simp at h
  · intro cfgOpt meta st h
    unfold webhookVoice at h
    repeat' split at h
    all_goals first
      | (simp only [Option.some_inj] at h; subst h; simp_all [mkSession])
      | exact handleIVRRouting_stored_inv _ _ _ h
      | exact handleExternalIntegration_stored_inv _ _ _ h
      | exact handleTimeBasedRouting_stored_inv _ _ _ h
      | exact defaultRouting_stored_inv _ _ _ h
      | simp at h

/-- The session stored by the IVR timeout fallback on `ivrSession 0`. -/
def timeoutStoredSession : CallSession :=
  { clientConfig := ivrCfg, selectedAgent := some a1, ivrContext := none,
    callType := "inbound", fromNumber := "+15550002222",
    toNumber := "+15550003333" }

/-- The session stored by the IVR digit match `"2"` on `ivrSession 0`. -/
def selectionStoredSession : CallSession :=
  { clientConfig := ivrCfg, selectedAgent := some a2, ivrContext := none,
    callType := "inbound", fromNumber := "+15550002222",
    toNumber := "+15550003333" }

/-- C7 witness: on a concrete mid-menu session, the timeout fallback and an
IVR digit match both store a selected agent with `ivrContext` cleared. -/
theorem session_single_agent_invariant_witness :
    (webhookIvrTimeout (some (ivrSession 0))).stored =
      some timeoutStoredSession ∧
    timeoutStoredSession.selectedAgent.isSome = true ∧
    timeoutStoredSession.ivrContext = none ∧
    (webhookIvrSelection (some (ivrSession 0)) "2").stored =
      some selectionStoredSession ∧
    selectionStoredSession.ivrContext = none := by
  have h1 := session_single_agent_invariant.2.1 (ivrSession 0)
    timeoutStoredSession (by decide)
  have h2 := session_single_agent_invariant.1 (ivrSession 0)
    selectionStoredSession "2" (by decide) (by decide)
  exact ⟨by decide, h1.1, h1.2, by decide, h2⟩

/-- C10 witness: the profile `p1` has recording and transcription disabled
(`some false`), yet the assembled configuration reports both enabled. -/
theorem recording_flags_always_true_witness :
    p1.call_recording_enabled = some false ∧
    p1.transcription_enabled = some false ∧
    (buildClientConfig p1 directPhone [] [] none []).recordingEnabled =
      true ∧
    (buildClientConfig p1 directPhone [] [] none []).transcriptionEnabled =
      true :=
  ⟨rfl, rfl, (recording_flags_always_true p1 directPhone [] [] none []).1,
   (recording_flags_always_true p1 directPhone [] [] none []).2.1⟩
